import Mathlib

/-!
Verification of `bm_rayMeshIntersect.py`: a Moeller-Trumbore ray/triangle
intersector (`mtIntersect`) and a brute-force mesh ray caster
(`rayMeshIntersect`).  The real-number arithmetic of the source (Python
doubles) is modelled over `ℚ`; every branch condition of the source is
translated verbatim.
-/

/-- A three-component vector, modelling the MVector type of the host API
(world-space point or direction). -/
structure Vec3 where
  x : ℚ
  y : ℚ
  z : ℚ
deriving DecidableEq, Repr

/-- Componentwise subtraction (vector `-` in the source). -/
def vsub (a b : Vec3) : Vec3 := ⟨a.x - b.x, a.y - b.y, a.z - b.z⟩

/-- Componentwise addition (vector `+` in the source). -/
def vadd (a b : Vec3) : Vec3 := ⟨a.x + b.x, a.y + b.y, a.z + b.z⟩

/-- Scalar multiplication `v * t` (vector times scalar in the source). -/
def smul (t : ℚ) (a : Vec3) : Vec3 := ⟨t * a.x, t * a.y, t * a.z⟩

/-- Dot product (`*` between two vectors in the source). -/
def dot (a b : Vec3) : ℚ := a.x * b.x + a.y * b.y + a.z * b.z

/-- Cross product (`^` between two vectors in the source). -/
def cross (a b : Vec3) : Vec3 :=
  ⟨a.y * b.z - a.z * b.y, a.z * b.x - a.x * b.z, a.x * b.y - a.y * b.x⟩

/-- Squared Euclidean length.  The source compares values of `length()`
(the square root of this); since the square root is strictly monotone on
nonnegatives, every comparison between lengths coincides with the comparison
between squared lengths, so all branch decisions are preserved. -/
def normSq (a : Vec3) : ℚ := a.x * a.x + a.y * a.y + a.z * a.z

/-- `eps = .0000001`, line 31 of the source. -/
def eps : ℚ := 1 / 10000000

/-- The determinant `a = edge1 * h` with `h = rayVector ^ edge2`,
`rayVector = p1 - p0`, `edge1 = v1 - v0`, `edge2 = v2 - v0`: lines 32-39 of
`mtIntersect`. -/
def mtA (p0 p1 v0 v1 v2 : Vec3) : ℚ :=
  dot (vsub v1 v0) (cross (vsub p1 p0) (vsub v2 v0))

/-- The first barycentric coordinate `u = f * (s * h)` with `f = 1/a` and
`s = p0 - v0`: lines 44-46 of `mtIntersect`. -/
def mtU (p0 p1 v0 v1 v2 : Vec3) : ℚ :=
  (1 / mtA p0 p1 v0 v1 v2) * dot (vsub p0 v0) (cross (vsub p1 p0) (vsub v2 v0))

/-- The second barycentric coordinate `v = f * (rayVector * q)` with
`q = s ^ edge1`: lines 51-52 of `mtIntersect`. -/
def mtV (p0 p1 v0 v1 v2 : Vec3) : ℚ :=
  (1 / mtA p0 p1 v0 v1 v2) * dot (vsub p1 p0) (cross (vsub p0 v0) (vsub v1 v0))

/-- The ray parameter `t = f * (edge2 * q)`: line 57 of `mtIntersect`. -/
def mtT (p0 p1 v0 v1 v2 : Vec3) : ℚ :=
  (1 / mtA p0 p1 v0 v1 v2) * dot (vsub v2 v0) (cross (vsub p0 v0) (vsub v1 v0))

/-- The Moeller-Trumbore triangle intersection (`mtIntersect`, lines 9-62 of
the source).  Returns the hit point (`some`) or `none` (`False` in the
source).  The guards are those of the source, branch for branch:
`-1 * eps < a < eps`, `u < 0.0 or u > 1.0`, `v < 0.0 or v > 1.0`, and
finally `t > eps`. -/
def mtIntersect (p0 p1 v0 v1 v2 : Vec3) : Option Vec3 :=
  if -1 * eps < mtA p0 p1 v0 v1 v2 ∧ mtA p0 p1 v0 v1 v2 < eps then none
  else if mtU p0 p1 v0 v1 v2 < 0 ∨ mtU p0 p1 v0 v1 v2 > 1 then none
  else if mtV p0 p1 v0 v1 v2 < 0 ∨ mtV p0 p1 v0 v1 v2 > 1 then none
  else if mtT p0 p1 v0 v1 v2 > eps then
    some (vadd p0 (smul (mtT p0 p1 v0 v1 v2) (vsub p1 p0)))
  else none

/-- One mesh face, as the Mesh Provider supplies it: its world-space unit
normal (`itMesh.getNormal`, line 96) and the world-space vertex positions of
its triangulation (`itMesh.getTriangles`, line 106; length a multiple of
three). -/
structure Face where
  normal : Vec3
  triVerts : List Vec3
deriving DecidableEq, Repr

/-- A mesh is the ordered list of its faces (the polygon-iterator traversal
order of the source). -/
abbrev Mesh := List Face

/-- Group a triangulation vertex list into consecutive vertex triples,
modelling the index loop of lines 107-121: `numTris` is the floor of
`len / 3` and triangle `i` is built from vertices `3i, 3i+1, 3i+2`; a
trailing remainder shorter than three vertices is dropped by the floor
division, exactly as here. -/
def chunk3 : List Vec3 → List (Vec3 × Vec3 × Vec3)
  | a :: b :: c :: rest => (a, b, c) :: chunk3 rest
  | _ => []

/-- `minDotProduct = -.25`, line 87 of the source. -/
def minDotProduct : ℚ := -(1 / 4)

/-- The face-traversal loop of lines 91-122: for each face in order, if
`rayVector * normal > minDotProduct` the face is skipped, otherwise the
triangles of its triangulation are appended to `triVertLocs`. -/
def collectTris (rayVector : Vec3) : List Face → List (Vec3 × Vec3 × Vec3)
  | [] => []
  | f :: rest =>
    if dot rayVector f.normal > minDotProduct then collectTris rayVector rest
    else chunk3 f.triVerts ++ collectTris rayVector rest

/-- The hit-collection loop of lines 124-132: each candidate triangle is sent
to `mtIntersect` and every result other than `False` is appended to
`hitList`, in order. -/
def hitsOf (rayOrigin rayDirection : Vec3) (tris : List (Vec3 × Vec3 × Vec3)) :
    List Vec3 :=
  tris.filterMap fun tri => mtIntersect rayOrigin rayDirection tri.1 tri.2.1 tri.2.2

/-- The selection loop of lines 135-143.  `closestLen` starts as
`float("inf")`, modelled by `⊤ : WithTop ℚ`; the loop body only ever
reassigns `closestHitPoint` — the source never updates `closestLen`, and this
embedding reproduces that faithfully.  The source compares Euclidean
lengths; `normSq` is the square of that quantity (see `normSq`; here the
comparison is against `⊤`, so the branch taken is the same either way). -/
def closestLoop (rayOrigin : Vec3) (closestLen : WithTop ℚ) (closestHitPoint : Vec3) :
    List Vec3 → Vec3
  | [] => closestHitPoint
  | hitPoint :: rest =>
    if ((normSq (vsub rayOrigin hitPoint) : ℚ) : WithTop ℚ) < closestLen then
      closestLoop rayOrigin closestLen hitPoint rest
    else
      closestLoop rayOrigin closestLen closestHitPoint rest

/-- The three observably distinct outcomes of `rayMeshIntersect`:
`invalidMesh` is the bare `return` of line 84 (Python `None`) after the
`RuntimeError` handler, `noHit` is `return False` (line 150), `hit p` is a
returned point (line 148). -/
inductive CastRes where
  | invalidMesh
  | noHit
  | hit (p : Vec3)
deriving DecidableEq, Repr, BEq

/-- The mesh ray caster (`rayMeshIntersect`, lines 66-150).  `meshDag` is
`none` when the Mesh Provider cannot resolve the handle (the constructor of
the polygon iterator raising `RuntimeError`, lines 79-84).  Otherwise: cull
and collect candidate triangles, gather hits, and if any exist run the
selection loop seeded with `hitList[0]` and `closestLen = inf` over the
whole hit list (lines 135-148). -/
def rayMeshIntersect (meshDag : Option Mesh) (rayOrigin rayDirection : Vec3) :
    CastRes :=
  match meshDag with
  | none => CastRes.invalidMesh
  | some mesh =>
    let rayVector := vsub rayDirection rayOrigin
    let triVertLocs := collectTris rayVector mesh
    let hitList := hitsOf rayOrigin rayDirection triVertLocs
    match hitList with
    | [] => CastRes.noHit
    | h0 :: rest => CastRes.hit (closestLoop rayOrigin ⊤ h0 (h0 :: rest))

/-- Unfolding lemma: on a resolvable mesh the caster is the selection loop
over the collected hit list. -/
lemma rayMeshIntersect_some (mesh : Mesh) (o d : Vec3) :
  rayMeshIntersect (some mesh) o d =
    match hitsOf o d (collectTris (vsub d o) mesh) with
    | [] => CastRes.noHit
    | h0 :: rest => CastRes.hit (closestLoop o ⊤ h0 (h0 :: rest)) := rfl

/-- Triangle collection distributes over face-list concatenation. -/
lemma collectTris_append (rv : Vec3) (l1 l2 : List Face) :
  collectTris rv (l1 ++ l2) = collectTris rv l1 ++ collectTris rv l2 := by
  induction l1 with
  | nil => simp [collectTris]
  | cons f rest ih =>
    simp only [List.cons_append, collectTris]
    split
    · exact ih
    · simp [ih, List.append_assoc]

/-- The selection loop only ever returns its accumulator or an element of
the list it walks. -/
lemma closestLoop_mem (o : Vec3) (len : WithTop ℚ) :
    ∀ (l : List Vec3) (c : Vec3), closestLoop o len c l ∈ c :: l := by
  intro l
  induction l with
  | nil => intro c; simp [closestLoop]
  | cons p rest ih =>
    intro c
    simp only [closestLoop]
    split
    · exact List.mem_cons_of_mem _ (ih p)
    · rcases List.mem_cons.mp (ih c) with h | h
      · exact List.mem_cons.mpr (Or.inl h)
      · exact List.mem_cons.mpr (Or.inr (List.mem_cons_of_mem _ h))

/-- Any point the Triangle Intersector returns is the evaluation of the ray
at its parameter `t`, with `t > eps`. -/
lemma mtIntersect_some_on_ray (p0 p1 v0 v1 v2 pt : Vec3)
    (h : mtIntersect p0 p1 v0 v1 v2 = some pt) :
    ∃ t, eps < t ∧ pt = vadd p0 (smul t (vsub p1 p0)) := by
  unfold mtIntersect at h
  split_ifs at h with h1 h2 h3 h4
  all_goals injection h with h
  exact ⟨mtT p0 p1 v0 v1 v2, h4, h.symm⟩

/-- C1: the claim says `rayMeshIntersect` returns the hit minimizing
Euclidean distance from the origin.  The code does not: `closestLen` is
never updated inside the selection loop, so every hit passes the
`< float("inf")` comparison and the LAST collected hit is returned.  On a
two-face mesh whose hit list is `[(0,0,1), (0,0,2)]` (first hit strictly
closer to the origin `(0,0,0)`), the caster returns `(0,0,2)`. -/
theorem rayMeshIntersect_returns_last_hit :
    rayMeshIntersect
      (some [⟨⟨0,0,-1⟩, [⟨-1,-1,1⟩, ⟨2,-1,1⟩, ⟨-1,2,1⟩]⟩,
             ⟨⟨0,0,-1⟩, [⟨-1,-1,2⟩, ⟨2,-1,2⟩, ⟨-1,2,2⟩]⟩])
      ⟨0,0,0⟩ ⟨0,0,1⟩ = CastRes.hit ⟨0,0,2⟩ ∧
    hitsOf ⟨0,0,0⟩ ⟨0,0,1⟩
      (collectTris ⟨0,0,1⟩
        [⟨⟨0,0,-1⟩, [⟨-1,-1,1⟩, ⟨2,-1,1⟩, ⟨-1,2,1⟩]⟩,
         ⟨⟨0,0,-1⟩, [⟨-1,-1,2⟩, ⟨2,-1,2⟩, ⟨-1,2,2⟩]⟩]) =
      [⟨0,0,1⟩, ⟨0,0,2⟩] ∧
    normSq (vsub ⟨0,0,0⟩ ⟨0,0,1⟩) < normSq (vsub ⟨0,0,0⟩ ⟨0,0,2⟩) := by
  norm_num [rayMeshIntersect, collectTris, chunk3, hitsOf, List.filterMap, closestLoop,
    mtIntersect, mtA, mtU, mtV, mtT, vsub, vadd, smul, dot, cross, eps, minDotProduct, normSq]

/-- C2: the second barycentric test is exactly `v < 0.0 or v > 1.0`, not the
textbook `u + v > 1` rejection: at this input `u = v = 4/5` (both in
`[0,1]`), `u + v = 8/5 > 1`, `t = 1/2 > eps`, and `mtIntersect` returns a
hit point rather than absent. -/
theorem mtIntersect_accepts_u_plus_v_gt_one :
    0 ≤ mtU ⟨4/5, 4/5, -1⟩ ⟨4/5, 4/5, 1⟩ ⟨0,0,0⟩ ⟨1,0,0⟩ ⟨0,1,0⟩ ∧
    mtU ⟨4/5, 4/5, -1⟩ ⟨4/5, 4/5, 1⟩ ⟨0,0,0⟩ ⟨1,0,0⟩ ⟨0,1,0⟩ ≤ 1 ∧
    0 ≤ mtV ⟨4/5, 4/5, -1⟩ ⟨4/5, 4/5, 1⟩ ⟨0,0,0⟩ ⟨1,0,0⟩ ⟨0,1,0⟩ ∧
    mtV ⟨4/5, 4/5, -1⟩ ⟨4/5, 4/5, 1⟩ ⟨0,0,0⟩ ⟨1,0,0⟩ ⟨0,1,0⟩ ≤ 1 ∧
    1 < mtU ⟨4/5, 4/5, -1⟩ ⟨4/5, 4/5, 1⟩ ⟨0,0,0⟩ ⟨1,0,0⟩ ⟨0,1,0⟩ +
        mtV ⟨4/5, 4/5, -1⟩ ⟨4/5, 4/5, 1⟩ ⟨0,0,0⟩ ⟨1,0,0⟩ ⟨0,1,0⟩ ∧
    eps < mtT ⟨4/5, 4/5, -1⟩ ⟨4/5, 4/5, 1⟩ ⟨0,0,0⟩ ⟨1,0,0⟩ ⟨0,1,0⟩ ∧
    mtIntersect ⟨4/5, 4/5, -1⟩ ⟨4/5, 4/5, 1⟩ ⟨0,0,0⟩ ⟨1,0,0⟩ ⟨0,1,0⟩ =
      some ⟨4/5, 4/5, 0⟩ := by
  norm_num [mtIntersect, mtA, mtU, mtV, mtT, vsub, vadd, smul, dot, cross, eps]

/-- C3: when the Mesh Provider cannot resolve the mesh handle, the caster
reports the invalid-input outcome immediately (for every ray, touching no
triangle data), and that outcome is distinct in the result type both from
the no-hit outcome and from every hit outcome. -/
theorem rayMeshIntersect_invalid_mesh_distinct (origin dir : Vec3) :
    rayMeshIntersect none origin dir = CastRes.invalidMesh ∧
    (CastRes.invalidMesh == CastRes.noHit) = false ∧
    ∀ p : Vec3, (CastRes.invalidMesh == CastRes.hit p) = false :=
  ⟨rfl, rfl, fun _ => rfl⟩

/-- C4: whenever `|a| < eps` the Triangle Intersector returns absent, and
for any ray a fully degenerate triangle (`v0 = v1 = v2`) returns absent. -/
theorem mtIntersect_parallel_or_degenerate_absent (p0 p1 v0 v1 v2 w : Vec3) :
    (|mtA p0 p1 v0 v1 v2| < eps → mtIntersect p0 p1 v0 v1 v2 = none) ∧
    mtIntersect p0 p1 w w w = none := by
  constructor
  · intro h
    rw [abs_lt] at h
    unfold mtIntersect
    rw [if_pos ⟨by linarith [h.1], h.2⟩]
  · have hz : mtA p0 p1 w w w = 0 := by simp [mtA, vsub, dot]
    unfold mtIntersect
    rw [if_pos (by rw [hz]; norm_num [eps])]

/-- Witness for C4: a ray lying in the plane `z = 0` against a triangle in
the plane `z = 1` gives `a = 0`, and a degenerate triangle, both absent. -/
theorem mtIntersect_parallel_or_degenerate_absent_witness :
    mtIntersect ⟨0,0,0⟩ ⟨1,0,0⟩ ⟨0,0,1⟩ ⟨1,0,1⟩ ⟨0,1,1⟩ = none ∧
    mtIntersect ⟨0,0,0⟩ ⟨1,0,0⟩ ⟨5,6,7⟩ ⟨5,6,7⟩ ⟨5,6,7⟩ = none :=
  ⟨(mtIntersect_parallel_or_degenerate_absent
        ⟨0,0,0⟩ ⟨1,0,0⟩ ⟨0,0,1⟩ ⟨1,0,1⟩ ⟨0,1,1⟩ ⟨5,6,7⟩).1
      (by norm_num [mtA, vsub, dot, cross, eps]),
   (mtIntersect_parallel_or_degenerate_absent
        ⟨0,0,0⟩ ⟨1,0,0⟩ ⟨0,0,1⟩ ⟨1,0,1⟩ ⟨0,1,1⟩ ⟨5,6,7⟩).2⟩

/-- C5: past the parallelism and both barycentric tests, the Triangle
Intersector returns `origin + rayVector * t` exactly when `t > eps` and
absent when `t ≤ eps`. -/
theorem mtIntersect_t_threshold (p0 p1 v0 v1 v2 : Vec3)
    (h1 : ¬(-1 * eps < mtA p0 p1 v0 v1 v2 ∧ mtA p0 p1 v0 v1 v2 < eps))
    (h2 : ¬(mtU p0 p1 v0 v1 v2 < 0 ∨ mtU p0 p1 v0 v1 v2 > 1))
    (h3 : ¬(mtV p0 p1 v0 v1 v2 < 0 ∨ mtV p0 p1 v0 v1 v2 > 1)) :
    mtIntersect p0 p1 v0 v1 v2 =
      if mtT p0 p1 v0 v1 v2 > eps then
        some (vadd p0 (smul (mtT p0 p1 v0 v1 v2) (vsub p1 p0)))
      else none := by
  unfold mtIntersect
  rw [if_neg h1, if_neg h2, if_neg h3]

/-- Witness for C5: a ray through a triangle in the plane `z = 1` passes all
three guards (`a = -9`, `u = v = 1/3`). -/
theorem mtIntersect_t_threshold_witness :
    mtIntersect ⟨0,0,0⟩ ⟨0,0,1⟩ ⟨-1,-1,1⟩ ⟨2,-1,1⟩ ⟨-1,2,1⟩ =
      if mtT ⟨0,0,0⟩ ⟨0,0,1⟩ ⟨-1,-1,1⟩ ⟨2,-1,1⟩ ⟨-1,2,1⟩ > eps then
        some (vadd ⟨0,0,0⟩ (smul (mtT ⟨0,0,0⟩ ⟨0,0,1⟩ ⟨-1,-1,1⟩ ⟨2,-1,1⟩ ⟨-1,2,1⟩)
          (vsub ⟨0,0,1⟩ ⟨0,0,0⟩)))
      else none :=
  mtIntersect_t_threshold ⟨0,0,0⟩ ⟨0,0,1⟩ ⟨-1,-1,1⟩ ⟨2,-1,1⟩ ⟨-1,2,1⟩
    (by norm_num [mtA, vsub, dot, cross, eps])
    (by norm_num [mtU, mtA, vsub, dot, cross])
    (by norm_num [mtV, mtA, vsub, dot, cross])

/-- C6: a face whose world normal `n` satisfies
`(through - origin) * n > minDotProduct` is skipped entirely: the candidate
triangle list is the same as for the mesh without that face, and so is the
final cast result, hence no hit on such a face is ever reported. -/
theorem rayMeshIntersect_culls_face (pre post : List Face) (f : Face) (origin dir : Vec3)
    (h : dot (vsub dir origin) f.normal > minDotProduct) :
    collectTris (vsub dir origin) (pre ++ f :: post) =
      collectTris (vsub dir origin) (pre ++ post) ∧
    rayMeshIntersect (some (pre ++ f :: post)) origin dir =
      rayMeshIntersect (some (pre ++ post)) origin dir := by
  have hf : collectTris (vsub dir origin) [f] = [] := by
    simp only [collectTris]
    rw [if_pos h]
  have key : collectTris (vsub dir origin) (pre ++ f :: post) =
      collectTris (vsub dir origin) (pre ++ post) := by
    rw [show (pre ++ f :: post) = pre ++ [f] ++ post by simp, collectTris_append,
      collectTris_append, hf, List.append_nil, ← collectTris_append]
  exact ⟨key, by rw [rayMeshIntersect_some, rayMeshIntersect_some, key]⟩

/-- Witness for C6: a single back-facing face (normal along the ray,
`d = 1 > -1/4`) is culled and the cast behaves as on the empty mesh. -/
theorem rayMeshIntersect_culls_face_witness :
    collectTris (vsub ⟨0,0,1⟩ ⟨0,0,0⟩)
      ([] ++ (⟨⟨0,0,1⟩, [⟨0,0,0⟩, ⟨1,0,0⟩, ⟨0,1,0⟩]⟩ : Face) :: []) =
      collectTris (vsub ⟨0,0,1⟩ ⟨0,0,0⟩) ([] ++ []) ∧
    rayMeshIntersect (some ([] ++ (⟨⟨0,0,1⟩, [⟨0,0,0⟩, ⟨1,0,0⟩, ⟨0,1,0⟩]⟩ : Face) :: []))
      ⟨0,0,0⟩ ⟨0,0,1⟩ = rayMeshIntersect (some ([] ++ [])) ⟨0,0,0⟩ ⟨0,0,1⟩ :=
  rayMeshIntersect_culls_face [] [] ⟨⟨0,0,1⟩, [⟨0,0,0⟩, ⟨1,0,0⟩, ⟨0,1,0⟩]⟩ ⟨0,0,0⟩ ⟨0,0,1⟩
    (by norm_num [dot, vsub, minDotProduct])

/-- C7: on a well-formed query whose hit list is empty the caster reports
the no-hit outcome, which is distinct in the result type both from the
invalid-input outcome and from every hit outcome. -/
theorem rayMeshIntersect_no_hit_empty (mesh : Mesh) (origin dir : Vec3)
    (h : hitsOf origin dir (collectTris (vsub dir origin) mesh) = []) :
    rayMeshIntersect (some mesh) origin dir = CastRes.noHit ∧
    (CastRes.noHit == CastRes.invalidMesh) = false ∧
    ∀ p : Vec3, (CastRes.noHit == CastRes.hit p) = false := by
  refine ⟨?_, rfl, fun _ => rfl⟩
  rw [rayMeshIntersect_some, h]

/-- Witness for C7: the empty mesh yields an empty hit list and a no-hit
report. -/
theorem rayMeshIntersect_no_hit_empty_witness :
    rayMeshIntersect (some []) ⟨0,0,0⟩ ⟨0,0,1⟩ = CastRes.noHit ∧
    (CastRes.noHit == CastRes.invalidMesh) = false ∧
    ∀ p : Vec3, (CastRes.noHit == CastRes.hit p) = false :=
  rayMeshIntersect_no_hit_empty [] ⟨0,0,0⟩ ⟨0,0,1⟩ rfl

/-- C8: the cast is a deterministic pure query with no cross-call state:
two calls with identical mesh, origin, and through inputs yield identical
results (the embedding of the source is a total function of its inputs). -/
theorem rayMeshIntersect_deterministic (meshDag : Option Mesh) (origin dir : Vec3) :
    rayMeshIntersect meshDag origin dir = rayMeshIntersect meshDag origin dir := rfl

/-- C9: the Triangle Intersector is total and never divides by zero: past
the parallelism guard the determinant is nonzero and its reciprocal is a
genuine inverse, and on every input the function returns either absent or a
point. -/
theorem mtIntersect_total_no_div_zero (p0 p1 v0 v1 v2 : Vec3) :
    (¬(-1 * eps < mtA p0 p1 v0 v1 v2 ∧ mtA p0 p1 v0 v1 v2 < eps) →
       mtA p0 p1 v0 v1 v2 ≠ 0 ∧
       mtA p0 p1 v0 v1 v2 * (1 / mtA p0 p1 v0 v1 v2) = 1) ∧
    (mtIntersect p0 p1 v0 v1 v2 = none ∨ ∃ pt, mtIntersect p0 p1 v0 v1 v2 = some pt) := by
  constructor
  · intro h
    have hne : mtA p0 p1 v0 v1 v2 ≠ 0 := by
      intro h0
      exact h (by rw [h0]; norm_num [eps])
    exact ⟨hne, mul_one_div_cancel hne⟩
  · cases hmt : mtIntersect p0 p1 v0 v1 v2 with
    | none => exact Or.inl rfl
    | some pt => exact Or.inr ⟨pt, rfl⟩

/-- Witness for C9: at an input with determinant `a = -9` the guard fails,
the determinant is nonzero and its reciprocal multiplies to one. -/
theorem mtIntersect_total_no_div_zero_witness :
    (mtA ⟨0,0,0⟩ ⟨0,0,1⟩ ⟨-1,-1,1⟩ ⟨2,-1,1⟩ ⟨-1,2,1⟩ ≠ 0 ∧
     mtA ⟨0,0,0⟩ ⟨0,0,1⟩ ⟨-1,-1,1⟩ ⟨2,-1,1⟩ ⟨-1,2,1⟩ *
       (1 / mtA ⟨0,0,0⟩ ⟨0,0,1⟩ ⟨-1,-1,1⟩ ⟨2,-1,1⟩ ⟨-1,2,1⟩) = 1) ∧
    (mtIntersect ⟨0,0,0⟩ ⟨0,0,1⟩ ⟨-1,-1,1⟩ ⟨2,-1,1⟩ ⟨-1,2,1⟩ = none ∨
     ∃ pt, mtIntersect ⟨0,0,0⟩ ⟨0,0,1⟩ ⟨-1,-1,1⟩ ⟨2,-1,1⟩ ⟨-1,2,1⟩ = some pt) :=
  ⟨(mtIntersect_total_no_div_zero ⟨0,0,0⟩ ⟨0,0,1⟩ ⟨-1,-1,1⟩ ⟨2,-1,1⟩ ⟨-1,2,1⟩).1
      (by norm_num [mtA, vsub, dot, cross, eps]),
   (mtIntersect_total_no_div_zero ⟨0,0,0⟩ ⟨0,0,1⟩ ⟨-1,-1,1⟩ ⟨2,-1,1⟩ ⟨-1,2,1⟩).2⟩

/-- C10: every point the Triangle Intersector returns lies on the ray at
parameter `t > eps`, and every hit point the caster returns is an element
of the collected hit list and lies on the queried ray. -/
theorem rayMeshIntersect_hit_lies_on_ray (p0 p1 v0 v1 v2 : Vec3) (mesh : Mesh) :
    (∀ pt, mtIntersect p0 p1 v0 v1 v2 = some pt →
       ∃ t, eps < t ∧ pt = vadd p0 (smul t (vsub p1 p0))) ∧
    (∀ p, rayMeshIntersect (some mesh) p0 p1 = CastRes.hit p →
       p ∈ hitsOf p0 p1 (collectTris (vsub p1 p0) mesh) ∧
       ∃ t, eps < t ∧ p = vadd p0 (smul t (vsub p1 p0))) := by
  constructor
  · exact fun pt h => mtIntersect_some_on_ray p0 p1 v0 v1 v2 pt h
  · intro p hp
    rw [rayMeshIntersect_some] at hp
    split at hp
    · exact absurd hp (by simp)
    · rename_i h0 rest heq
      have hpe : closestLoop p0 ⊤ h0 (h0 :: rest) = p := by
        injection hp
      have hmem : p ∈ h0 :: h0 :: rest := hpe ▸ closestLoop_mem p0 ⊤ (h0 :: rest) h0
      have hmem2 : p ∈ h0 :: rest := by
        rcases List.mem_cons.mp hmem with h | h
        · rw [h]; exact List.mem_cons_self _ _
        · exact h
      rw [← heq] at hmem2
      refine ⟨hmem2, ?_⟩
      simp only [hitsOf] at hmem2
      obtain ⟨tri, _, hsome⟩ := List.mem_filterMap.mp hmem2
      exact mtIntersect_some_on_ray p0 p1 tri.1 tri.2.1 tri.2.2 p hsome

/-- Witness for C10: on a one-face mesh the reported hit `(0,0,1)` is a
member of the hit list and lies on the ray. -/
theorem rayMeshIntersect_hit_lies_on_ray_witness :
    (⟨0,0,1⟩ : Vec3) ∈ hitsOf ⟨0,0,0⟩ ⟨0,0,1⟩
      (collectTris (vsub ⟨0,0,1⟩ ⟨0,0,0⟩)
        [⟨⟨0,0,-1⟩, [⟨-1,-1,1⟩, ⟨2,-1,1⟩, ⟨-1,2,1⟩]⟩]) ∧
    ∃ t, eps < t ∧ (⟨0,0,1⟩ : Vec3) = vadd ⟨0,0,0⟩ (smul t (vsub ⟨0,0,1⟩ ⟨0,0,0⟩)) :=
  (rayMeshIntersect_hit_lies_on_ray ⟨0,0,0⟩ ⟨0,0,1⟩ ⟨0,0,0⟩ ⟨0,0,0⟩ ⟨0,0,0⟩
      [⟨⟨0,0,-1⟩, [⟨-1,-1,1⟩, ⟨2,-1,1⟩, ⟨-1,2,1⟩]⟩]).2 ⟨0,0,1⟩
    (by norm_num [rayMeshIntersect, collectTris, chunk3, hitsOf, List.filterMap, closestLoop,
      mtIntersect, mtA, mtU, mtV, mtT, vsub, vadd, smul, dot, cross, eps, minDotProduct])
